import Mathlib

/-!
A verification model of the Open-Meteo MCP server (`src/index.ts`).

Conventions of the shallow embedding:

* JavaScript numbers that flow through validation and URL building are
  modelled as rationals (`ℚ`).  Every finite double is a decimal rational,
  and ECMAScript `Number.prototype.toString` prints the exact shortest
  decimal form of the double; `numToString` below prints the exact decimal
  form of a decimal rational, which agrees with JS on every such value.
* JSON scalar values that the formatters merely interpolate into template
  literals are modelled as their JS string renderings (`String`), since the
  formatters never compute with them.
* A JavaScript property access on a possibly-absent field is modelled with
  `Option`; reading `daily.time` when `daily` is `undefined` throws a
  `TypeError` in JS, modelled as `ToolError.jsTypeError`.  Indexing an
  array out of bounds yields `undefined`, which a template literal renders
  as the string `"undefined"`; `jsIndex` models this with `List.getD`.
* The `fetch` performed by each tool function is abstracted into an
  `UpstreamResult` argument carrying either the HTTP failure status text or
  the parsed JSON body.
* Zod reports validation failures as a `ZodError`, which the request
  handler converts to a generic invalid-arguments error; the model keeps
  the issue kind and offending path but abstracts the message text.
  Zod aggregates issues across fields; the model reports the first failing
  field (claims only distinguish success from validation failure).
-/

namespace WeatherMCP

/-! ## JS decimal number printing and parsing -/

/-- The decimal digit character for `n < 10`. -/
def decDigit (n : ℕ) : Char := Char.ofNat (48 + n)

/-- Fuel-driven most-significant-first decimal digit accumulation. -/
def natDigitsFuel : ℕ → ℕ → List Char → List Char
  | 0, _, acc => acc
  | f + 1, n, acc => if n = 0 then acc else natDigitsFuel f (n / 10) (decDigit (n % 10) :: acc)

/-- Decimal digits of a natural number, as JS prints it (`0` prints `"0"`). -/
def natDigits (n : ℕ) : List Char :=
  if n = 0 then ['0'] else natDigitsFuel n n []

/-- Fuel-driven count of the multiplicity of `p` in `n`. -/
def factorOutFuel : ℕ → ℕ → ℕ → ℕ
  | 0, _, _ => 0
  | f + 1, p, n => if 2 ≤ p ∧ n ≠ 0 ∧ n % p = 0 then factorOutFuel f p (n / p) + 1 else 0

/-- Multiplicity of `p` in `n` (for `2 ≤ p`, `n ≠ 0`). -/
def factorOut (p n : ℕ) : ℕ := factorOutFuel n p n

/-- The decimal exponent of a rational: the least `e` with `q.den ∣ 10 ^ e`
when the reduced denominator has only the prime factors 2 and 5. -/
def decExp (q : ℚ) : ℕ := max (factorOut 2 q.den) (factorOut 5 q.den)

/-- `q` has a finite decimal representation.  Every finite JS double
satisfies this (its reduced denominator is a power of two). -/
def IsDecimal (q : ℚ) : Prop := q.den ∣ 10 ^ decExp q

instance (q : ℚ) : Decidable (IsDecimal q) := by
  unfold IsDecimal; infer_instance

/-- Pad a digit list with leading zeros up to length `e`. -/
def padLeft (e : ℕ) (l : List Char) : List Char :=
  List.replicate (e - l.length) '0' ++ l

/-- Unsigned decimal rendering of the value `a / 10 ^ e`. -/
def natNumString (a e : ℕ) : List Char :=
  if e = 0 then natDigits a
  else natDigits (a / 10 ^ e) ++ '.' :: padLeft e (natDigits (a % 10 ^ e))

/-- Model of JS `Number.prototype.toString` on decimal rationals: the exact
decimal form, with a leading minus sign for negative values and no trailing
fractional zeros (because `decExp` is minimal). -/
def numToString (q : ℚ) : String :=
  let e := decExp q
  let a := (q.num * ((10 : ℤ) ^ e / (q.den : ℤ))).natAbs
  if q < 0 then String.mk ('-' :: natNumString a e) else String.mk (natNumString a e)

/-- Numeric value of a decimal digit character, if it is one. -/
def digitVal (c : Char) : Option ℕ :=
  if c.toNat < 48 ∨ 57 < c.toNat then none else some (c.toNat - 48)

/-- Left-to-right accumulation of a digit string's value. -/
def digitsToNatAux : List Char → ℕ → Option ℕ
  | [], acc => some acc
  | c :: cs, acc =>
    match digitVal c with
    | none => none
    | some d => digitsToNatAux cs (acc * 10 + d)

/-- Parse a non-empty all-digit list as a natural number. -/
def digitsToNat (l : List Char) : Option ℕ :=
  if l = [] then none else digitsToNatAux l 0

/-- Split a character list at the first dot, if any. -/
def splitDot : List Char → List Char × Option (List Char)
  | [] => ([], none)
  | c :: cs =>
    if c = '.' then ([], some cs)
    else
      let r := splitDot cs
      (c :: r.1, r.2)

/-- Parse an unsigned decimal numeral (integer part, optional dot and
fractional part) as a rational. -/
def parseNumCore (l : List Char) : Option ℚ :=
  match splitDot l with
  | (ip, none) => (digitsToNat ip).map (fun n => (n : ℚ))
  | (ip, some fp) =>
    match digitsToNat ip, digitsToNat fp with
    | some i, some f => some ((i : ℚ) + (f : ℚ) / 10 ^ fp.length)
    | _, _ => none

/-- Parse a decimal numeral with an optional leading minus sign. -/
def parseNum (s : String) : Option ℚ :=
  match s.data with
  | [] => none
  | c :: cs => if c = '-' then (parseNumCore cs).map Neg.neg else parseNumCore (c :: cs)

/-! ## Argument schemas (`GetForecastArgsSchema`, `GetCurrentWeatherArgsSchema`,
`GeocodeArgsSchema`, `src/index.ts` lines 12-27) -/

/-- A zod validation issue: a missing required field or a failed
`min`/`max` check, identified by its path. -/
inductive ZodIssue where
  | required (path : String)
  | outOfRange (path : String)
  deriving DecidableEq

/-- `z.number().min(lo).max(hi)` on a possibly-absent field. -/
def checkNumber (path : String) (lo hi : ℚ) : Option ℚ → Except ZodIssue ℚ
  | none => .error (.required path)
  | some v =>
    if v < lo then .error (.outOfRange path)
    else if hi < v then .error (.outOfRange path)
    else .ok v

/-- Raw (pre-validation) arguments of `get_forecast`. -/
structure RawForecastArgs where
  latitude : Option ℚ
  longitude : Option ℚ
  forecast_days : Option ℚ

/-- Validated arguments of `get_forecast`. -/
structure ForecastArgs where
  latitude : ℚ
  longitude : ℚ
  forecast_days : ℚ
  deriving DecidableEq

/-- Raw (pre-validation) arguments of `get_current_weather`. -/
structure RawCurrentWeatherArgs where
  latitude : Option ℚ
  longitude : Option ℚ

/-- Validated arguments of `get_current_weather`. -/
structure CurrentWeatherArgs where
  latitude : ℚ
  longitude : ℚ
  deriving DecidableEq

/-- Raw (pre-validation) arguments of `geocode`. -/
structure RawGeocodeArgs where
  location : Option String

/-- Validated arguments of `geocode`. -/
structure GeocodeArgs where
  location : String
  deriving DecidableEq

/-- `GetForecastArgsSchema.parse`: latitude in `[-90, 90]`, longitude in
`[-180, 180]`, `forecast_days` in `[1, 16]`, optional with default `7`
(`src/index.ts` lines 12-16). -/
def GetForecastArgsSchema (raw : RawForecastArgs) : Except ZodIssue ForecastArgs :=
  match checkNumber "latitude" (-90) 90 raw.latitude with
  | .error e => .error e
  | .ok lat =>
    match checkNumber "longitude" (-180) 180 raw.longitude with
    | .error e => .error e
    | .ok lon =>
      match raw.forecast_days with
      | none => .ok ⟨lat, lon, 7⟩
      | some d =>
        match checkNumber "forecast_days" 1 16 (some d) with
        | .error e => .error e
        | .ok fd => .ok ⟨lat, lon, fd⟩

/-- `GetCurrentWeatherArgsSchema.parse` (`src/index.ts` lines 19-22). -/
def GetCurrentWeatherArgsSchema (raw : RawCurrentWeatherArgs) :
    Except ZodIssue CurrentWeatherArgs :=
  match checkNumber "latitude" (-90) 90 raw.latitude with
  | .error e => .error e
  | .ok lat =>
    match checkNumber "longitude" (-180) 180 raw.longitude with
    | .error e => .error e
    | .ok lon => .ok ⟨lat, lon⟩

/-- `GeocodeArgsSchema.parse`: `location` is `z.string()` with no further
checks (`src/index.ts` lines 25-27); any string, including the empty
string, validates. -/
def GeocodeArgsSchema (raw : RawGeocodeArgs) : Except ZodIssue GeocodeArgs :=
  match raw.location with
  | none => .error (.required "location")
  | some s => .ok ⟨s⟩

/-! ## Upstream payload models and formatters (`src/index.ts` lines 30-58,
105-121) -/

/-- Errors thrown by a tool call, by throwing site: a `ZodError` surfaced as
an invalid-arguments error by the handler, an upstream non-2xx status
surfaced with its status text, or a JS `TypeError` from accessing a property
of `undefined`. -/
inductive ToolError where
  | invalidArguments
  | upstreamError (message : String)
  | jsTypeError
  deriving DecidableEq

/-- Result of the `fetch` + `response.json()` pair: a non-ok HTTP status
with its status text, or a parsed JSON body. -/
inductive UpstreamResult (α : Type) where
  | httpError (statusText : String)
  | success (body : α)

/-- JS array indexing as rendered by a template literal: out-of-bounds
access yields `undefined`, which renders as the string `"undefined"`. -/
def jsIndex (l : List String) (i : ℕ) : String := l.getD i "undefined"

/-- The `daily` object of a forecast payload: parallel arrays of scalars
(modelled by their string renderings). -/
structure DailyData where
  time : List String
  temperature_2m_max : List String
  temperature_2m_min : List String
  precipitation_sum : List String
  wind_speed_10m_max : List String
  weather_code : List String

/-- A parsed forecast payload; `daily` may be absent. -/
structure ForecastData where
  latitude : String
  longitude : String
  daily : Option DailyData

/-- The day block emitted by one iteration of the loop in `formatForecast`
(`src/index.ts` lines 34-40). -/
def forecastDayBlock (daily : DailyData) (i : ℕ) : String :=
  "Date: " ++ jsIndex daily.time i ++ "\n" ++
  "  Temperature: " ++ jsIndex daily.temperature_2m_max i ++ "°C max, " ++
    jsIndex daily.temperature_2m_min i ++ "°C min\n" ++
  "  Precipitation: " ++ jsIndex daily.precipitation_sum i ++ " mm\n" ++
  "  Wind Speed: " ++ jsIndex daily.wind_speed_10m_max i ++ " km/h max\n" ++
  "  Weather Code: " ++ jsIndex daily.weather_code i ++ "\n\n"

/-- `formatForecast` (`src/index.ts` lines 30-43): header, blank line, one
block per index of `daily.time`.  When `daily` is absent, `daily.time`
throws a `TypeError`. -/
def formatForecast (data : ForecastData) : Except ToolError String :=
  match data.daily with
  | none => .error .jsTypeError
  | some daily =>
    .ok ((List.range daily.time.length).foldl
      (fun acc i => acc ++ forecastDayBlock daily i)
      ("Weather Forecast for coordinates (" ++ data.latitude ++ ", " ++
        data.longitude ++ ")\n\n"))

/-- The `current` object of a current-weather payload. -/
structure CurrentData where
  time : String
  temperature_2m : String
  relative_humidity_2m : String
  precipitation : String
  wind_speed_10m : String
  wind_direction_10m : String
  weather_code : String

/-- A parsed current-weather payload; `current` may be absent. -/
structure CurrentWeatherData where
  latitude : String
  longitude : String
  current : Option CurrentData

/-- `formatCurrentWeather` (`src/index.ts` lines 46-58).  When `current` is
absent, `current.time` throws a `TypeError`. -/
def formatCurrentWeather (data : CurrentWeatherData) : Except ToolError String :=
  match data.current with
  | none => .error .jsTypeError
  | some current =>
    .ok ("Current Weather for coordinates (" ++ data.latitude ++ ", " ++
      data.longitude ++ ")\n\n" ++
      "Time: " ++ current.time ++ "\n" ++
      "Temperature: " ++ current.temperature_2m ++ "°C\n" ++
      "Relative Humidity: " ++ current.relative_humidity_2m ++ "%\n" ++
      "Precipitation: " ++ current.precipitation ++ " mm\n" ++
      "Wind Speed: " ++ current.wind_speed_10m ++ " km/h\n" ++
      "Wind Direction: " ++ current.wind_direction_10m ++ "°\n" ++
      "Weather Code: " ++ current.weather_code ++ "\n")

/-- One geocoding result record.  `admin1`/`country` are skipped by the
source when absent or empty (JS falsiness of strings); `elevation` is a
number, skipped when absent or zero (JS falsiness of numbers). -/
structure GeoPlace where
  name : String
  admin1 : Option String
  country : Option String
  latitude : String
  longitude : String
  elevation : Option ℚ

/-- A parsed geocoding payload; `results` may be absent. -/
structure GeocodeData where
  results : Option (List GeoPlace)

/-- The block emitted for one place by the loop in `geocodeLocation`
(`src/index.ts` lines 112-119). -/
def formatPlace (place : GeoPlace) : String :=
  place.name ++
  (match place.admin1 with
    | some a => if a = "" then "" else ", " ++ a
    | none => "") ++
  (match place.country with
    | some c => if c = "" then "" else ", " ++ c
    | none => "") ++
  "\n  Coordinates: " ++ place.latitude ++ ", " ++ place.longitude ++ "\n" ++
  (match place.elevation with
    | some e => if e = 0 then "" else "  Elevation: " ++ numToString e ++ "m\n"
    | none => "") ++
  "\n"

/-! ## Request building (`src/index.ts` lines 61-98) -/

/-- An outbound GET request: base URL and ordered query parameters, as
accumulated by `URL.searchParams.append`. -/
structure URLRequest where
  base : String
  params : List (String × String)
  deriving DecidableEq

/-- The URL built by `getForecast` (`src/index.ts` lines 62-67). -/
def getForecastURL (latitude longitude forecast_days : ℚ) : URLRequest :=
  { base := "https://api.open-meteo.com/v1/forecast"
    params := [("latitude", numToString latitude),
               ("longitude", numToString longitude),
               ("daily", "temperature_2m_max,temperature_2m_min,precipitation_sum,wind_speed_10m_max,weather_code"),
               ("forecast_days", numToString forecast_days),
               ("timezone", "auto")] }

/-- The URL built by `getCurrentWeather` (`src/index.ts` lines 79-82). -/
def getCurrentWeatherURL (latitude longitude : ℚ) : URLRequest :=
  { base := "https://api.open-meteo.com/v1/forecast"
    params := [("latitude", numToString latitude),
               ("longitude", numToString longitude),
               ("current", "temperature_2m,relative_humidity_2m,precipitation,wind_speed_10m,wind_direction_10m,weather_code")] }

/-- The URL built by `geocodeLocation` (`src/index.ts` lines 94-98). -/
def geocodeLocationURL (location : String) : URLRequest :=
  { base := "https://geocoding-api.open-meteo.com/v1/search"
    params := [("name", location),
               ("count", "5"),
               ("language", "en"),
               ("format", "json")] }

/-- `URLSearchParams.get`: the value of the first parameter with the given
key, if any. -/
def getParam (u : URLRequest) (key : String) : Option String :=
  (u.params.find? (fun p => p.1 = key)).map Prod.snd

/-! ## Tool pipeline (`src/index.ts` lines 61-122 and the
`CallToolRequestSchema` handler, lines 211-255) -/

/-- `getForecast` after the fetch: non-ok status throws the API error,
otherwise the parsed body is formatted (`src/index.ts` lines 69-75). -/
def getForecast (latitude longitude forecast_days : ℚ)
    (resp : UpstreamResult ForecastData) : Except ToolError String :=
  match latitude, longitude, forecast_days, resp with
  | _, _, _, .httpError st => .error (.upstreamError ("Open Meteo API error: " ++ st))
  | _, _, _, .success data => formatForecast data

/-- `getCurrentWeather` after the fetch (`src/index.ts` lines 84-90). -/
def getCurrentWeather (latitude longitude : ℚ)
    (resp : UpstreamResult CurrentWeatherData) : Except ToolError String :=
  match latitude, longitude, resp with
  | _, _, .httpError st => .error (.upstreamError ("Open Meteo API error: " ++ st))
  | _, _, .success data => formatCurrentWeather data

/-- `geocodeLocation` after the fetch (`src/index.ts` lines 100-121): a
missing or empty `results` list returns the no-results text (the source
checks `!data.results || data.results.length === 0`); otherwise a header
and one block per place. -/
def geocodeLocation (location : String)
    (resp : UpstreamResult GeocodeData) : Except ToolError String :=
  match resp with
  | .httpError st => .error (.upstreamError ("Geocoding API error: " ++ st))
  | .success data =>
    match data.results with
    | none => .ok ("No results found for location: " ++ location)
    | some [] => .ok ("No results found for location: " ++ location)
    | some results =>
      .ok (results.foldl (fun acc place => acc ++ formatPlace place)
        ("Geocoding results for \"" ++ location ++ "\":\n\n"))

/-- The `get_forecast` case of the call handler (`src/index.ts` lines
216-226 and 247-254): a `ZodError` becomes an invalid-arguments error,
then the validated arguments are passed to `getForecast`. -/
def handleGetForecast (raw : RawForecastArgs)
    (resp : UpstreamResult ForecastData) : Except ToolError String :=
  match GetForecastArgsSchema raw with
  | .error _ => .error .invalidArguments
  | .ok args => getForecast args.latitude args.longitude args.forecast_days resp

/-- The request `getForecast` would issue for the given raw arguments,
following the same parse step as the handler. -/
def forecastRequest (raw : RawForecastArgs) : Except ToolError URLRequest :=
  match GetForecastArgsSchema raw with
  | .error _ => .error .invalidArguments
  | .ok args => .ok (getForecastURL args.latitude args.longitude args.forecast_days)

/-- The `get_current_weather` case of the call handler (`src/index.ts`
lines 228-234 and 247-254). -/
def handleGetCurrentWeather (raw : RawCurrentWeatherArgs)
    (resp : UpstreamResult CurrentWeatherData) : Except ToolError String :=
  match GetCurrentWeatherArgsSchema raw with
  | .error _ => .error .invalidArguments
  | .ok args => getCurrentWeather args.latitude args.longitude resp

/-- The `geocode` case of the call handler (`src/index.ts` lines 236-242
and 247-254). -/
def handleGeocode (raw : RawGeocodeArgs)
    (resp : UpstreamResult GeocodeData) : Except ToolError String :=
  match GeocodeArgsSchema raw with
  | .error _ => .error .invalidArguments
  | .ok args => geocodeLocation args.location resp

/-! ## Spec-side descriptions (sections 4.2 and 4.4 of the specification) -/

/-- The section 4.2 table row for `get_forecast`: the forecast base path
with `latitude`, `longitude`, the fixed five-field `daily` list,
`forecast_days` and `timezone=auto`, numeric values serialized in the
platform's default decimal form, and no other parameters. -/
def specForecastTableRequest (latitude longitude forecast_days : ℚ) : URLRequest :=
  { base := "https://api.open-meteo.com/v1/forecast"
    params := [("latitude", numToString latitude),
               ("longitude", numToString longitude),
               ("daily", "temperature_2m_max,temperature_2m_min,precipitation_sum,wind_speed_10m_max,weather_code"),
               ("forecast_days", numToString forecast_days),
               ("timezone", "auto")] }

/-- The section 4.2 table row for `get_current_weather`: the forecast base
path with `latitude`, `longitude` and the fixed six-field `current` list,
and no other parameters. -/
def specCurrentWeatherTableRequest (latitude longitude : ℚ) : URLRequest :=
  { base := "https://api.open-meteo.com/v1/forecast"
    params := [("latitude", numToString latitude),
               ("longitude", numToString longitude),
               ("current", "temperature_2m,relative_humidity_2m,precipitation,wind_speed_10m,wind_direction_10m,weather_code")] }

/-- The section 4.2 table row for `geocode`: the geocoding search base path
with `name=<location>`, `count=5`, `language=en`, `format=json`, and no
other parameters. -/
def specGeocodeTableRequest (location : String) : URLRequest :=
  { base := "https://geocoding-api.open-meteo.com/v1/search"
    params := [("name", location),
               ("count", "5"),
               ("language", "en"),
               ("format", "json")] }

/-- Concatenation of `f i` for the indices `i` of `l`, in order. -/
def concatMap (f : ℕ → String) (l : List ℕ) : String :=
  l.foldr (fun i acc => f i ++ acc) ""

/-- The section 4.4 day block for index `i` of the daily series: a date
line, then indented temperature (max/min, °C), precipitation (mm),
max wind-speed (km/h) and weather-code lines, then a blank line. -/
def specDayBlock (d : DailyData) (i : ℕ) : String :=
  "Date: " ++ d.time.getD i "undefined" ++ "\n" ++
  "  Temperature: " ++ d.temperature_2m_max.getD i "undefined" ++ "°C max, " ++
    d.temperature_2m_min.getD i "undefined" ++ "°C min\n" ++
  "  Precipitation: " ++ d.precipitation_sum.getD i "undefined" ++ " mm\n" ++
  "  Wind Speed: " ++ d.wind_speed_10m_max.getD i "undefined" ++ " km/h max\n" ++
  "  Weather Code: " ++ d.weather_code.getD i "undefined" ++ "\n\n"

/-- Newline-terminated line sequence: every element is followed by a
newline, so a list of n lines yields a text ending in a single trailing
newline and containing a blank line exactly where an element is empty. -/
def unlines (ls : List String) : String :=
  ls.foldr (fun l acc => l ++ "\n" ++ acc) ""

/-- The section 4.4 current-weather layout: the header line, a blank line,
then the seven field lines in fixed order. -/
def specCurrentWeatherLines (latS lonS : String) (c : CurrentData) : List String :=
  ["Current Weather for coordinates (" ++ latS ++ ", " ++ lonS ++ ")",
   "",
   "Time: " ++ c.time,
   "Temperature: " ++ c.temperature_2m ++ "°C",
   "Relative Humidity: " ++ c.relative_humidity_2m ++ "%",
   "Precipitation: " ++ c.precipitation ++ " mm",
   "Wind Speed: " ++ c.wind_speed_10m ++ " km/h",
   "Wind Direction: " ++ c.wind_direction_10m ++ "°",
   "Weather Code: " ++ c.weather_code]

/-- Fuel-driven count of significant decimal digits (`0` counts 0). -/
def sigCountFuel : ℕ → ℕ → ℕ
  | 0, _ => 0
  | f + 1, n => if n = 0 then 0 else sigCountFuel f (n / 10) + 1

/-- Number of significant decimal digits of `n` (`sigCount 0 = 0`). -/
def sigCount (n : ℕ) : ℕ := sigCountFuel n n

/-- A decimal digit character. -/
def IsDigit (c : Char) : Prop := 48 ≤ c.toNat ∧ c.toNat ≤ 57

instance (c : Char) : Decidable (IsDigit c) := by
  unfold IsDigit; infer_instance

/-- Reading a numeric query parameter back from a built request:
`URLSearchParams.get` followed by decimal parsing. -/
def parseQueryParam (u : URLRequest) (key : String) : Option ℚ :=
  (getParam u key).bind parseNum

/-! ## Sanity checks of the number model -/

example : numToString 7 = "7" := by decide

example : numToString (mkRat 407128 10000) = "40.7128" := by decide

example : numToString (-90) = "-90" := by decide

example : numToString (mkRat (-740060) 10000) = "-74.006" := by decide

example : numToString (mkRat 1 2) = "0.5" := by decide

example : parseNum "40.7128" = some ((407128 : ℚ) / 10000) := by
  have h : "40.7128".data = ['4', '0', '.', '7', '1', '2', '8'] := rfl
  rw [parseNum.eq_def, h]
  simp +decide [parseNumCore, splitDot, digitsToNat, digitsToNatAux, digitVal]
  norm_num

example : parseNum "-74.006" = some ((-74006 : ℚ) / 1000) := by
  have h : "-74.006".data = ['-', '7', '4', '.', '0', '0', '6'] := rfl
  rw [parseNum.eq_def, h]
  simp +decide [parseNumCore, splitDot, digitsToNat, digitsToNatAux, digitVal]
  norm_num

/-! ## Validation helper lemmas -/

theorem checkNumber_out (path : String) (lo hi v : ℚ) (hlohi : lo ≤ hi)
    (h : v < lo ∨ hi < v) :
    checkNumber path lo hi (some v) = .error (.outOfRange path) := by
  simp only [checkNumber]
  rcases h with h | h
  · rw [if_pos h]
  · rw [if_neg (by linarith), if_pos h]

theorem checkNumber_in (path : String) (lo hi v : ℚ) (h1 : lo ≤ v) (h2 : v ≤ hi) :
    checkNumber path lo hi (some v) = .ok v := by
  simp only [checkNumber]
  rw [if_neg (by linarith), if_neg (by linarith)]

/-! ## Claim theorems -/

/-- C1, counterexample: `GeocodeArgsSchema` accepts the empty string, so a
`geocode` call with an empty location passes validation instead of failing
with invalid arguments, and a `GeocodeArgs` value holding the empty string
is constructed. -/
theorem geocode_empty_string_passes_validation :
    GeocodeArgsSchema ⟨some ""⟩ = .ok ⟨""⟩ := rfl

/-- C1, amended: the `location` field of `geocode` is validated only for
presence (it is `z.string()` with no minimum length), so every string,
including the empty string, yields a validated `GeocodeArgs` and the call
proceeds to the upstream request. -/
theorem geocode_validation_accepts_any_string (s : String)
    (resp : UpstreamResult GeocodeData) :
    GeocodeArgsSchema ⟨some s⟩ = .ok ⟨s⟩ ∧
    handleGeocode ⟨some s⟩ resp = geocodeLocation s resp :=
  ⟨rfl, rfl⟩

/-- C2, counterexample: on an empty results list the `geocode` formatter
returns the no-results line without double quotes around the location,
which differs from the claimed quoted form. -/
theorem geocode_no_results_line_is_unquoted :
    geocodeLocation "Nowhere123" (.success ⟨some []⟩) =
      .ok "No results found for location: Nowhere123" ∧
    "No results found for location: Nowhere123" ≠
      "No results found for location: \"Nowhere123\"" :=
  ⟨rfl, by decide⟩

/-- C2, amended: for every location, when the upstream geocoding response
has an empty results list the formatter returns exactly the single line
`No results found for location: <location>`, with the location not
enclosed in quotes and no further text. -/
theorem geocode_empty_results_message (location : String) :
    geocodeLocation location (.success ⟨some []⟩) =
      .ok ("No results found for location: " ++ location) := rfl

/-- C3, counterexample: when the upstream geocoding body lacks a `results`
field the call does not fail with an upstream error; it returns the
no-results text as a success result (the source guard
`!data.results || data.results.length === 0` treats a missing list like an
empty one). -/
theorem geocode_missing_results_is_success :
    geocodeLocation "Paris" (.success ⟨none⟩) =
      .ok "No results found for location: Paris" := rfl

/-- C3, amended: for every location, a geocoding body whose `results` field
is absent produces the same success text as an empty results list; it is
never an upstream error. -/
theorem geocode_missing_results_behaves_like_empty (location : String) :
    geocodeLocation location (.success ⟨none⟩) =
      .ok ("No results found for location: " ++ location) ∧
    geocodeLocation location (.success ⟨none⟩) =
      geocodeLocation location (.success ⟨some []⟩) :=
  ⟨rfl, rfl⟩

set_option maxRecDepth 4000 in
/-- C4, counterexample: a forecast payload whose `temperature_2m_max` array
is shorter than `daily.time` is not rejected; the formatter interpolates
the string `undefined` for the missing entry and returns the garbled text
as a success result. -/
theorem forecast_short_array_emits_undefined :
    formatForecast ⟨"40", "-74", some
      ⟨["2024-01-01", "2024-01-02"], ["5"], ["1", "0"], ["0", "0.4"],
        ["10", "12"], ["3", "2"]⟩⟩ =
    .ok ("Weather Forecast for coordinates (40, -74)\n\n" ++
      "Date: 2024-01-01\n  Temperature: 5°C max, 1°C min\n" ++
      "  Precipitation: 0 mm\n  Wind Speed: 10 km/h max\n  Weather Code: 3\n\n" ++
      "Date: 2024-01-02\n  Temperature: undefined°C max, 0°C min\n" ++
      "  Precipitation: 0.4 mm\n  Wind Speed: 12 km/h max\n  Weather Code: 2\n\n") := by
  rfl

set_option maxRecDepth 4000 in
/-- C4, amended: when the forecast payload lacks `daily` or the
current-weather payload lacks `current`, the formatter throws (a JS
`TypeError`, surfaced as a generic protocol error rather than a dedicated
malformed-response error) and no success text is produced; but a daily
array shorter than `daily.time` is not detected — the formatter emits
`undefined` placeholder values for the missing entries as a success
result. -/
theorem format_missing_field_behavior :
    (∀ latS lonS : String, formatForecast ⟨latS, lonS, none⟩ = .error .jsTypeError) ∧
    (∀ latS lonS : String, formatCurrentWeather ⟨latS, lonS, none⟩ = .error .jsTypeError) ∧
    formatForecast ⟨"40", "-74", some
      ⟨["2024-01-01", "2024-01-02"], ["5"], ["1", "0"], ["0", "0.4"],
        ["10", "12"], ["3", "2"]⟩⟩ =
    .ok ("Weather Forecast for coordinates (40, -74)\n\n" ++
      "Date: 2024-01-01\n  Temperature: 5°C max, 1°C min\n" ++
      "  Precipitation: 0 mm\n  Wind Speed: 10 km/h max\n  Weather Code: 3\n\n" ++
      "Date: 2024-01-02\n  Temperature: undefined°C max, 0°C min\n" ++
      "  Precipitation: 0.4 mm\n  Wind Speed: 12 km/h max\n  Weather Code: 2\n\n") :=
  ⟨fun _ _ => rfl, fun _ _ => rfl, by rfl⟩

theorem formatForecast_some (latS lonS : String) (d : DailyData) :
    ∃ text, formatForecast ⟨latS, lonS, some d⟩ = .ok text := ⟨_, rfl⟩

theorem formatCurrentWeather_some (latS lonS : String) (c : CurrentData) :
    ∃ text, formatCurrentWeather ⟨latS, lonS, some c⟩ = .ok text := ⟨_, rfl⟩

/-- C5: for both coordinate tools, a latitude outside `[-90, 90]` or a
longitude outside `[-180, 180]` fails validation with an
invalid-arguments error (never clamped), while any pair inside the
inclusive bounds — the boundary values included — passes validation and,
given a well-formed upstream body, returns a success text. -/
theorem coordinate_bounds_validation (lat lon : ℚ) :
    ((lat < -90 ∨ 90 < lat ∨ lon < -180 ∨ 180 < lon) →
      (∀ (fd : Option ℚ) (resp : UpstreamResult ForecastData),
        handleGetForecast ⟨some lat, some lon, fd⟩ resp = .error .invalidArguments) ∧
      (∀ resp : UpstreamResult CurrentWeatherData,
        handleGetCurrentWeather ⟨some lat, some lon⟩ resp = .error .invalidArguments)) ∧
    (-90 ≤ lat → lat ≤ 90 → -180 ≤ lon → lon ≤ 180 →
      (∀ (latS lonS : String) (d : DailyData) (fd : Option ℚ) (v : ℚ),
        fd = none ∨ (fd = some v ∧ 1 ≤ v ∧ v ≤ 16) →
        ∃ text, handleGetForecast ⟨some lat, some lon, fd⟩
          (.success ⟨latS, lonS, some d⟩) = .ok text) ∧
      (∀ (latS lonS : String) (c : CurrentData),
        ∃ text, handleGetCurrentWeather ⟨some lat, some lon⟩
          (.success ⟨latS, lonS, some c⟩) = .ok text)) := by
  constructor
  · intro h
    have hforecast : ∀ (fd : Option ℚ),
        ∃ i, GetForecastArgsSchema ⟨some lat, some lon, fd⟩ = .error i := by
      intro fd
      rcases h with h | h | h | h
      · exact ⟨.outOfRange "latitude", by simp [GetForecastArgsSchema,
          checkNumber_out "latitude" (-90) 90 lat (by norm_num) (Or.inl h)]⟩
      · exact ⟨.outOfRange "latitude", by simp [GetForecastArgsSchema,
          checkNumber_out "latitude" (-90) 90 lat (by norm_num) (Or.inr h)]⟩
      all_goals {
        rcases hlat : checkNumber "latitude" (-90) 90 (some lat) with i | v
        · exact ⟨i, by simp [GetForecastArgsSchema, hlat]⟩
        · exact ⟨.outOfRange "longitude", by simp [GetForecastArgsSchema, hlat,
            checkNumber_out "longitude" (-180) 180 lon (by norm_num) (by tauto)]⟩ }
    have hcurrent : ∃ i, GetCurrentWeatherArgsSchema ⟨some lat, some lon⟩ = .error i := by
      rcases h with h | h | h | h
      · exact ⟨.outOfRange "latitude", by simp [GetCurrentWeatherArgsSchema,
          checkNumber_out "latitude" (-90) 90 lat (by norm_num) (Or.inl h)]⟩
      · exact ⟨.outOfRange "latitude", by simp [GetCurrentWeatherArgsSchema,
          checkNumber_out "latitude" (-90) 90 lat (by norm_num) (Or.inr h)]⟩
      all_goals {
        rcases hlat : checkNumber "latitude" (-90) 90 (some lat) with i | v
        · exact ⟨i, by simp [GetCurrentWeatherArgsSchema, hlat]⟩
        · exact ⟨.outOfRange "longitude", by simp [GetCurrentWeatherArgsSchema, hlat,
            checkNumber_out "longitude" (-180) 180 lon (by norm_num) (by tauto)]⟩ }
    refine ⟨fun fd resp => ?_, fun resp => ?_⟩
    · obtain ⟨i, hi⟩ := hforecast fd
      simp [handleGetForecast, hi]
    · obtain ⟨i, hi⟩ := hcurrent
      simp [handleGetCurrentWeather, hi]
  · intro h1 h2 h3 h4
    refine ⟨fun latS lonS d fd v hfd => ?_, fun latS lonS c => ?_⟩
    · rcases hfd with hfd | ⟨hfd, hv1, hv2⟩ <;> subst hfd
      · obtain ⟨text, ht⟩ := formatForecast_some latS lonS d
        refine ⟨text, ?_⟩
        simp only [handleGetForecast, GetForecastArgsSchema,
          checkNumber_in "latitude" (-90) 90 lat h1 h2,
          checkNumber_in "longitude" (-180) 180 lon h3 h4]
        exact ht
      · obtain ⟨text, ht⟩ := formatForecast_some latS lonS d
        refine ⟨text, ?_⟩
        simp only [handleGetForecast, GetForecastArgsSchema,
          checkNumber_in "latitude" (-90) 90 lat h1 h2,
          checkNumber_in "longitude" (-180) 180 lon h3 h4,
          checkNumber_in "forecast_days" 1 16 v hv1 hv2]
        exact ht
    · obtain ⟨text, ht⟩ := formatCurrentWeather_some latS lonS c
      refine ⟨text, ?_⟩
      simp only [handleGetCurrentWeather, GetCurrentWeatherArgsSchema,
        checkNumber_in "latitude" (-90) 90 lat h1 h2,
        checkNumber_in "longitude" (-180) 180 lon h3 h4]
      exact ht

/-- C5, witness: latitude 91 fails for both tools; the boundary pair
(-90, 180) validates and succeeds on a well-formed body. -/
theorem coordinate_bounds_validation_witness :
    handleGetForecast ⟨some 91, some 0, none⟩
      (.success ⟨"40", "-74", some ⟨[], [], [], [], [], []⟩⟩) =
      .error .invalidArguments ∧
    handleGetCurrentWeather ⟨some 91, some 0⟩
      (.success ⟨"40", "-74", some ⟨"t", "1", "2", "3", "4", "5", "6"⟩⟩) =
      .error .invalidArguments ∧
    (∃ text, handleGetForecast ⟨some (-90), some 180, none⟩
      (.success ⟨"40", "-74", some ⟨[], [], [], [], [], []⟩⟩) = .ok text) ∧
    (∃ text, handleGetCurrentWeather ⟨some 90, some (-180)⟩
      (.success ⟨"40", "-74", some ⟨"t", "1", "2", "3", "4", "5", "6"⟩⟩) = .ok text) :=
  ⟨((coordinate_bounds_validation 91 0).1 (by norm_num)).1 none _,
   ((coordinate_bounds_validation 91 0).1 (by norm_num)).2 _,
   ((coordinate_bounds_validation (-90) 180).2 (by norm_num) (by norm_num)
      (by norm_num) (by norm_num)).1 "40" "-74" _ none 0 (Or.inl rfl),
   ((coordinate_bounds_validation 90 (-180)).2 (by norm_num) (by norm_num)
      (by norm_num) (by norm_num)).2 "40" "-74" _⟩

/-- C6: with in-range coordinates, omitting `forecast_days` validates to
the default 7 and the built URL carries `forecast_days=7`; the values 0
and 17 fail validation with an invalid-arguments error; the values 1 and
16 validate to themselves. -/
theorem forecast_days_rules (lat lon : ℚ)
    (h1 : -90 ≤ lat) (h2 : lat ≤ 90) (h3 : -180 ≤ lon) (h4 : lon ≤ 180) :
    GetForecastArgsSchema ⟨some lat, some lon, none⟩ = .ok ⟨lat, lon, 7⟩ ∧
    forecastRequest ⟨some lat, some lon, none⟩ = .ok (getForecastURL lat lon 7) ∧
    getParam (getForecastURL lat lon 7) "forecast_days" = some "7" ∧
    (∀ resp, handleGetForecast ⟨some lat, some lon, some 0⟩ resp =
      .error .invalidArguments) ∧
    (∀ resp, handleGetForecast ⟨some lat, some lon, some 17⟩ resp =
      .error .invalidArguments) ∧
    GetForecastArgsSchema ⟨some lat, some lon, some 1⟩ = .ok ⟨lat, lon, 1⟩ ∧
    GetForecastArgsSchema ⟨some lat, some lon, some 16⟩ = .ok ⟨lat, lon, 16⟩ := by
  have hlat := checkNumber_in "latitude" (-90) 90 lat h1 h2
  have hlon := checkNumber_in "longitude" (-180) 180 lon h3 h4
  refine ⟨?_, ?_, rfl, fun resp => ?_, fun resp => ?_, ?_, ?_⟩
  · simp [GetForecastArgsSchema, hlat, hlon]
  · simp [forecastRequest, GetForecastArgsSchema, hlat, hlon]
  · simp [handleGetForecast, GetForecastArgsSchema, hlat, hlon,
      checkNumber_out "forecast_days" 1 16 0 (by norm_num) (Or.inl (by norm_num))]
  · simp [handleGetForecast, GetForecastArgsSchema, hlat, hlon,
      checkNumber_out "forecast_days" 1 16 17 (by norm_num) (Or.inr (by norm_num))]
  · simp [GetForecastArgsSchema, hlat, hlon,
      checkNumber_in "forecast_days" 1 16 1 (by norm_num) (by norm_num)]
  · simp [GetForecastArgsSchema, hlat, hlon,
      checkNumber_in "forecast_days" 1 16 16 (by norm_num) (by norm_num)]

/-- C6, witness: concrete in-range coordinates (40, -74). -/
theorem forecast_days_rules_witness :
    GetForecastArgsSchema ⟨some 40, some (-74), none⟩ = .ok ⟨40, -74, 7⟩ ∧
    getParam (getForecastURL 40 (-74) 7) "forecast_days" = some "7" ∧
    GetForecastArgsSchema ⟨some 40, some (-74), some 16⟩ = .ok ⟨40, -74, 16⟩ :=
  ⟨(forecast_days_rules 40 (-74) (by norm_num) (by norm_num) (by norm_num)
      (by norm_num)).1,
   (forecast_days_rules 40 (-74) (by norm_num) (by norm_num) (by norm_num)
      (by norm_num)).2.2.1,
   (forecast_days_rules 40 (-74) (by norm_num) (by norm_num) (by norm_num)
      (by norm_num)).2.2.2.2.2.2⟩

theorem foldl_append_concatMap (f : ℕ → String) :
    ∀ (l : List ℕ) (init : String),
      l.foldl (fun acc i => acc ++ f i) init = init ++ concatMap f l
  | [], init => by simp [concatMap, String.append_empty]
  | i :: l, init => by
    simp only [List.foldl_cons, concatMap, List.foldr_cons]
    rw [foldl_append_concatMap f l (init ++ f i), String.append_assoc]
    rfl

/-- C7: each request builder is a pure function producing exactly the base
path and parameter list of the section 4.2 table. -/
theorem request_builders_match_spec_table :
    (∀ latitude longitude forecast_days : ℚ,
      getForecastURL latitude longitude forecast_days =
        specForecastTableRequest latitude longitude forecast_days) ∧
    (∀ latitude longitude : ℚ,
      getCurrentWeatherURL latitude longitude =
        specCurrentWeatherTableRequest latitude longitude) ∧
    (∀ location : String,
      geocodeLocationURL location = specGeocodeTableRequest location) :=
  ⟨fun _ _ _ => rfl, fun _ _ => rfl, fun _ => rfl⟩

set_option maxRecDepth 4000 in
/-- C8: the forecast formatter emits the header followed by one section
4.4 day block per index of the daily series, in upstream order; an empty
series yields only the header (and its blank line), and a two-element
series yields exactly two blocks in order. -/
theorem forecast_formatter_layout :
    (∀ (latS lonS : String) (d : DailyData),
      formatForecast ⟨latS, lonS, some d⟩ =
        .ok ("Weather Forecast for coordinates (" ++ latS ++ ", " ++ lonS ++
          ")\n\n" ++ concatMap (specDayBlock d) (List.range d.time.length))) ∧
    (∀ (latS lonS : String) (a b c e f : List String),
      formatForecast ⟨latS, lonS, some ⟨[], a, b, c, e, f⟩⟩ =
        .ok ("Weather Forecast for coordinates (" ++ latS ++ ", " ++ lonS ++
          ")\n\n")) ∧
    (∀ latS lonS t1 t2 a1 a2 b1 b2 p1 p2 w1 w2 c1 c2 : String,
      formatForecast ⟨latS, lonS,
          some ⟨[t1, t2], [a1, a2], [b1, b2], [p1, p2], [w1, w2], [c1, c2]⟩⟩ =
        .ok ("Weather Forecast for coordinates (" ++ latS ++ ", " ++ lonS ++
            ")\n\n" ++
          ("Date: " ++ t1 ++ "\n" ++
           "  Temperature: " ++ a1 ++ "°C max, " ++ b1 ++ "°C min\n" ++
           "  Precipitation: " ++ p1 ++ " mm\n" ++
           "  Wind Speed: " ++ w1 ++ " km/h max\n" ++
           "  Weather Code: " ++ c1 ++ "\n\n") ++
          ("Date: " ++ t2 ++ "\n" ++
           "  Temperature: " ++ a2 ++ "°C max, " ++ b2 ++ "°C min\n" ++
           "  Precipitation: " ++ p2 ++ " mm\n" ++
           "  Wind Speed: " ++ w2 ++ " km/h max\n" ++
           "  Weather Code: " ++ c2 ++ "\n\n"))) := by
  refine ⟨fun latS lonS d => ?_, fun latS lonS a b c e f => rfl,
    fun latS lonS t1 t2 a1 a2 b1 b2 p1 p2 w1 w2 c1 c2 => ?_⟩
  · exact congrArg Except.ok
      (foldl_append_concatMap (forecastDayBlock d) (List.range d.time.length) _)
  · show Except.ok _ = _
    refine congrArg Except.ok ?_
    apply String.ext
    have hr : List.range 2 = [0, 1] := rfl
    simp [hr, forecastDayBlock, jsIndex, List.getD, String.data_append]

set_option maxRecDepth 4000 in
/-- C10: on a payload with `current` present, the current-weather
formatter emits exactly the header line, one blank line, then the seven
field lines in fixed order with no blank lines among them, ending with a
single trailing newline. -/
theorem current_weather_formatter_layout (latS lonS : String) (c : CurrentData) :
    formatCurrentWeather ⟨latS, lonS, some c⟩ =
      .ok (unlines (specCurrentWeatherLines latS lonS c)) := by
  show Except.ok _ = _
  refine congrArg Except.ok ?_
  apply String.ext
  simp [unlines, specCurrentWeatherLines, String.data_append]

/-! ## Digit-printing lemmas -/

theorem sigCountFuel_zero : ∀ f, sigCountFuel f 0 = 0
  | 0 => rfl
  | _ + 1 => rfl

theorem div10_le_of_le_succ {n f : ℕ} (hn : n ≠ 0) (h : n ≤ f + 1) : n / 10 ≤ f :=
  Nat.le_of_lt_succ (Nat.lt_of_lt_of_le (Nat.div_lt_self (Nat.pos_of_ne_zero hn) (by norm_num)) h)

theorem sigCountFuel_congr : ∀ (f g n : ℕ), n ≤ f → n ≤ g → sigCountFuel f n = sigCountFuel g n := by
  intro f
  induction f with
  | zero =>
    intro g n hf _
    interval_cases n
    rw [sigCountFuel_zero, sigCountFuel_zero]
  | succ f ih =>
    intro g n hf hg
    by_cases hn : n = 0
    · subst hn; rw [sigCountFuel_zero, sigCountFuel_zero]
    · cases g with
      | zero => exact absurd (Nat.le_zero.mp hg) hn
      | succ g =>
        show (if n = 0 then 0 else sigCountFuel f (n / 10) + 1) =
          (if n = 0 then 0 else sigCountFuel g (n / 10) + 1)
        rw [if_neg hn, if_neg hn,
          ih g (n / 10) (div10_le_of_le_succ hn hf) (div10_le_of_le_succ hn hg)]

theorem sigCount_div10 (n : ℕ) (hn : n ≠ 0) : sigCount n = sigCount (n / 10) + 1 := by
  obtain ⟨m, rfl⟩ := Nat.exists_eq_succ_of_ne_zero hn
  show (if m + 1 = 0 then 0 else sigCountFuel m ((m + 1) / 10) + 1) = _
  rw [if_neg hn]
  congr 1
  exact sigCountFuel_congr m ((m + 1) / 10) ((m + 1) / 10)
    (div10_le_of_le_succ hn (Nat.le_refl _)) (Nat.le_refl _)

theorem digitVal_decDigit : ∀ d, d < 10 → digitVal (decDigit d) = some d := by decide

theorem isDigit_decDigit : ∀ d, d < 10 → IsDigit (decDigit d) := by decide

theorem digitsToNatAux_cons_digit (c : Char) (d : ℕ) (hd : digitVal c = some d)
    (cs : List Char) (k : ℕ) :
    digitsToNatAux (c :: cs) k = digitsToNatAux cs (k * 10 + d) := by
  rw [digitsToNatAux, hd]

theorem digitsToNatAux_natDigitsFuel :
    ∀ (f n : ℕ) (ds : List Char) (k : ℕ), n ≤ f →
      digitsToNatAux (natDigitsFuel f n ds) k =
        digitsToNatAux ds (k * 10 ^ sigCount n + n) := by
  intro f
  induction f with
  | zero =>
    intro n ds k hf
    interval_cases n
    show digitsToNatAux ds k = digitsToNatAux ds (k * 10 ^ sigCount 0 + 0)
    norm_num [sigCount, sigCountFuel_zero]
  | succ f ih =>
    intro n ds k hf
    by_cases hn : n = 0
    · subst hn
      show digitsToNatAux ds k = _
      norm_num [sigCount, sigCountFuel_zero]
    · show digitsToNatAux (natDigitsFuel (f + 1) n ds) k = _
      rw [natDigitsFuel, if_neg hn,
        ih (n / 10) (decDigit (n % 10) :: ds) k (div10_le_of_le_succ hn hf)]
      rw [digitsToNatAux_cons_digit _ _
        (digitVal_decDigit (n % 10) (Nat.mod_lt n (by norm_num)))]
      congr 1
      rw [sigCount_div10 n hn, pow_succ, Nat.add_mul, Nat.add_assoc, Nat.mul_assoc]
      congr 1
      omega

theorem natDigitsFuel_append : ∀ (f n : ℕ) (ds : List Char),
    natDigitsFuel f n ds = natDigitsFuel f n [] ++ ds := by
  intro f
  induction f with
  | zero => intro n ds; rfl
  | succ f ih =>
    intro n ds
    by_cases hn : n = 0
    · subst hn; rfl
    · show (if n = 0 then ds else _) = (if n = 0 then ([] : List Char) else _) ++ ds
      rw [if_neg hn, if_neg hn, ih (n / 10) (decDigit (n % 10) :: ds),
        ih (n / 10) [decDigit (n % 10)], List.append_assoc]
      rfl

theorem natDigits_ne_nil (n : ℕ) : natDigits n ≠ [] := by
  by_cases hn : n = 0
  · subst hn; exact fun h => List.noConfusion h
  · obtain ⟨m, rfl⟩ := Nat.exists_eq_succ_of_ne_zero hn
    show natDigitsFuel (m + 1) (m + 1) [] ≠ []
    rw [natDigitsFuel, if_neg hn, natDigitsFuel_append]
    simp

theorem natDigitsFuel_chars {P : Char → Prop} :
    ∀ (f n : ℕ) (ds : List Char), (∀ c ∈ ds, P c) → (∀ d, d < 10 → P (decDigit d)) →
      ∀ c ∈ natDigitsFuel f n ds, P c := by
  intro f
  induction f with
  | zero => intro n ds hds _ c hc; exact hds c hc
  | succ f ih =>
    intro n ds hds hdig c hc
    by_cases hn : n = 0
    · rw [natDigitsFuel, if_pos hn] at hc; exact hds c hc
    · rw [natDigitsFuel, if_neg hn] at hc
      refine ih (n / 10) _ ?_ hdig c hc
      intro x hx
      rcases List.mem_cons.mp hx with h | h
      · subst h; exact hdig (n % 10) (Nat.mod_lt n (by norm_num))
      · exact hds x h

theorem natDigits_chars (n : ℕ) : ∀ c ∈ natDigits n, IsDigit c := by
  by_cases hn : n = 0
  · subst hn; intro c hc; simp [natDigits] at hc; subst hc; decide
  · rw [natDigits, if_neg hn]
    exact natDigitsFuel_chars n n [] (by simp) isDigit_decDigit

theorem digitsToNatAux_natDigits (n : ℕ) : digitsToNatAux (natDigits n) 0 = some n := by
  by_cases hn : n = 0
  · subst hn; rfl
  · rw [natDigits, if_neg hn, digitsToNatAux_natDigitsFuel n n [] 0 (Nat.le_refl n)]
    show some (0 * 10 ^ sigCount n + n) = some n
    rw [Nat.zero_mul, Nat.zero_add]

theorem digitsToNat_natDigits (n : ℕ) : digitsToNat (natDigits n) = some n := by
  rw [digitsToNat, if_neg (natDigits_ne_nil n)]
  exact digitsToNatAux_natDigits n

theorem isDigit_ne_dot {c : Char} (h : IsDigit c) : c ≠ '.' := by
  rintro rfl
  exact absurd h (by decide)

theorem isDigit_ne_minus {c : Char} (h : IsDigit c) : c ≠ '-' := by
  rintro rfl
  exact absurd h (by decide)

theorem splitDot_no_dot : ∀ l : List Char, (∀ c ∈ l, c ≠ '.') → splitDot l = (l, none)
  | [], _ => rfl
  | c :: cs, h => by
    rw [splitDot, if_neg (h c (List.mem_cons_self c cs))]
    have := splitDot_no_dot cs (fun x hx => h x (List.mem_cons_of_mem c hx))
    rw [this]

theorem splitDot_first_dot : ∀ (l1 l2 : List Char), (∀ c ∈ l1, c ≠ '.') →
    splitDot (l1 ++ '.' :: l2) = (l1, some l2)
  | [], l2, _ => by rw [List.nil_append, splitDot, if_pos rfl]
  | c :: cs, l2, h => by
    rw [List.cons_append, splitDot, if_neg (h c (List.mem_cons_self c cs))]
    have := splitDot_first_dot cs l2 (fun x hx => h x (List.mem_cons_of_mem c hx))
    rw [this]

theorem digitsToNatAux_replicate_zero :
    ∀ (k : ℕ) (l : List Char), digitsToNatAux (List.replicate k '0' ++ l) 0 = digitsToNatAux l 0
  | 0, l => by rw [List.replicate_zero, List.nil_append]
  | k + 1, l => by
    rw [List.replicate_succ, List.cons_append,
      digitsToNatAux_cons_digit '0' 0 (by decide)]
    exact digitsToNatAux_replicate_zero k l

theorem padLeft_length {l : List Char} {e : ℕ} (h : l.length ≤ e) :
    (padLeft e l).length = e := by
  rw [padLeft, List.length_append, List.length_replicate]
  omega

theorem padLeft_ne_nil {l : List Char} (h : l ≠ []) (e : ℕ) : padLeft e l ≠ [] := by
  rw [padLeft]
  intro hc
  rw [List.append_eq_nil] at hc
  exact h hc.2

theorem padLeft_chars {l : List Char} (h : ∀ c ∈ l, IsDigit c) (e : ℕ) :
    ∀ c ∈ padLeft e l, IsDigit c := by
  intro c hc
  rw [padLeft, List.mem_append] at hc
  rcases hc with hc | hc
  · rw [List.eq_of_mem_replicate hc]; decide
  · exact h c hc

theorem digitsToNat_padLeft_natDigits (m e : ℕ) :
    digitsToNat (padLeft e (natDigits m)) = some m := by
  rw [digitsToNat, if_neg (padLeft_ne_nil (natDigits_ne_nil m) e), padLeft,
    digitsToNatAux_replicate_zero]
  exact digitsToNatAux_natDigits m

theorem natDigitsFuel_length : ∀ (f n : ℕ), n ≤ f →
    (natDigitsFuel f n []).length = sigCountFuel f n := by
  intro f
  induction f with
  | zero => intro n h; interval_cases n; rfl
  | succ f ih =>
    intro n h
    by_cases hn : n = 0
    · subst hn; rfl
    · rw [natDigitsFuel, if_neg hn, natDigitsFuel_append, List.length_append]
      show _ = if n = 0 then 0 else sigCountFuel f (n / 10) + 1
      rw [if_neg hn, ih (n / 10) (div10_le_of_le_succ hn h)]
      rfl

theorem natDigits_length (n : ℕ) (hn : n ≠ 0) : (natDigits n).length = sigCount n := by
  rw [natDigits, if_neg hn]
  exact natDigitsFuel_length n n (Nat.le_refl n)

theorem sigCount_le (e : ℕ) : ∀ m, m < 10 ^ e → sigCount m ≤ e := by
  induction e with
  | zero =>
    intro m hm
    rw [pow_zero] at hm
    interval_cases m
    exact Nat.le_refl 0
  | succ e ih =>
    intro m hm
    by_cases hmz : m = 0
    · subst hmz
      show sigCountFuel 0 0 ≤ e + 1
      exact Nat.zero_le _
    · rw [sigCount_div10 m hmz]
      have hdiv : m / 10 < 10 ^ e := by
        rw [Nat.div_lt_iff_lt_mul (by norm_num)]
        calc m < 10 ^ (e + 1) := hm
        _ = 10 ^ e * 10 := by rw [pow_succ]
      exact Nat.succ_le_succ (ih (m / 10) hdiv)

theorem natDigits_length_le {m e : ℕ} (hm : m < 10 ^ e) (he : 1 ≤ e) :
    (natDigits m).length ≤ e := by
  by_cases hmz : m = 0
  · subst hmz
    exact he
  · rw [natDigits_length m hmz]
    exact sigCount_le e m hm

theorem natNumString_chars (a e : ℕ) : ∀ c ∈ natNumString a e, IsDigit c ∨ c = '.' := by
  intro c hc
  rw [natNumString] at hc
  by_cases he : e = 0
  · rw [if_pos he] at hc
    exact Or.inl (natDigits_chars a c hc)
  · rw [if_neg he] at hc
    rcases List.mem_append.mp hc with h | h
    · exact Or.inl (natDigits_chars _ c h)
    · rcases List.mem_cons.mp h with h | h
      · exact Or.inr h
      · exact Or.inl (padLeft_chars (natDigits_chars _) e c h)

theorem natNumString_ne_nil (a e : ℕ) : natNumString a e ≠ [] := by
  rw [natNumString]
  by_cases he : e = 0
  · rw [if_pos he]; exact natDigits_ne_nil a
  · rw [if_neg he]
    intro h
    rw [List.append_eq_nil] at h
    exact natDigits_ne_nil _ h.1

theorem parseNumCore_natNumString (a e : ℕ) :
    parseNumCore (natNumString a e) = some ((a : ℚ) / 10 ^ e) := by
  by_cases he : e = 0
  · subst he
    rw [natNumString, if_pos rfl]
    simp only [parseNumCore,
      splitDot_no_dot _ (fun c hc => isDigit_ne_dot (natDigits_chars a c hc)),
      digitsToNat_natDigits]
    norm_num
  · rw [natNumString, if_neg he]
    simp only [parseNumCore,
      splitDot_first_dot _ _ (fun c hc => isDigit_ne_dot (natDigits_chars _ c hc)),
      digitsToNat_natDigits, digitsToNat_padLeft_natDigits]
    have hlen : (padLeft e (natDigits (a % 10 ^ e))).length = e :=
      padLeft_length (natDigits_length_le
        (Nat.mod_lt a (Nat.pos_pow_of_pos e (by norm_num)))
        (Nat.one_le_iff_ne_zero.mpr he))
    rw [hlen]
    congr 1
    have h10 : ((10 : ℚ) ^ e) ≠ 0 := pow_ne_zero e (by norm_num)
    rw [eq_div_iff h10, add_mul, div_mul_cancel₀ _ h10]
    norm_cast
    rw [Nat.mul_comm]
    exact Nat.div_add_mod a (10 ^ e)

theorem parseNum_mk_digits : ∀ (l : List Char), l ≠ [] →
    (∀ c ∈ l, IsDigit c ∨ c = '.') → parseNum (String.mk l) = parseNumCore l
  | [], hne, _ => absurd rfl hne
  | c :: cs, _, h => by
    have hc : c ≠ '-' := by
      rcases h c (List.mem_cons_self c cs) with hd | hd
      · exact isDigit_ne_minus hd
      · subst hd; decide
    show (if c = '-' then (parseNumCore cs).map Neg.neg else parseNumCore (c :: cs)) = _
    rw [if_neg hc]

/-- Printing a decimal rational with the JS `toString` model and parsing
the result back recovers the rational exactly. -/
theorem numToString_roundtrip (q : ℚ) (h : IsDecimal q) :
    parseNum (numToString q) = some q := by
  have hden0 : ((q.den : ℤ)) ≠ 0 := Int.natCast_ne_zero.mpr q.den_nz
  have hdvd : ((q.den : ℤ)) ∣ (10 : ℤ) ^ decExp q := by
    have := Int.natCast_dvd_natCast.mpr h
    push_cast at this
    exact this
  obtain ⟨k, hk⟩ := hdvd
  have hk0 : 0 < k := by
    have h1 : (0 : ℤ) < 10 ^ decExp q := by positivity
    have h2 : (0 : ℤ) < q.den := Int.natCast_pos.mpr q.pos
    nlinarith
  have hscaled : q.num * ((10 : ℤ) ^ decExp q / (q.den : ℤ)) = q.num * k := by
    rw [hk, Int.mul_ediv_cancel_left _ hden0]
  have hval : ((q.num * k : ℤ) : ℚ) = q * 10 ^ decExp q := by
    have hqd : ((q.den : ℚ)) ≠ 0 := by
      exact_mod_cast q.den_nz
    have h10 : ((10 : ℚ)) ^ decExp q = ((q.den : ℚ)) * (k : ℚ) := by
      exact_mod_cast congrArg (Int.cast : ℤ → ℚ) hk
    have hnum_eq : ((q.num : ℚ)) = q * (q.den : ℚ) :=
      (div_eq_iff hqd).mp (Rat.num_div_den q)
    push_cast
    rw [h10, hnum_eq]
    ring
  have hnum : numToString q =
      (if q < 0 then
        String.mk ('-' :: natNumString
          ((q.num * ((10 : ℤ) ^ decExp q / (q.den : ℤ))).natAbs) (decExp q))
      else
        String.mk (natNumString
          ((q.num * ((10 : ℤ) ^ decExp q / (q.den : ℤ))).natAbs) (decExp q))) := rfl
  have h10q : ((10 : ℚ) ^ decExp q) ≠ 0 := pow_ne_zero _ (by norm_num)
  rcases lt_or_le q 0 with hq | hq
  · have hnneg : q.num * k ≤ 0 :=
      mul_nonpos_iff.mpr (Or.inr ⟨le_of_lt (Rat.num_neg.mpr hq), le_of_lt hk0⟩)
    have habs : (((q.num * ((10 : ℤ) ^ decExp q / (q.den : ℤ))).natAbs : ℤ)) = -(q.num * k) := by
      rw [hscaled]
      omega
    have habsq : (((q.num * ((10 : ℤ) ^ decExp q / (q.den : ℤ))).natAbs : ℚ)) =
        -q * 10 ^ decExp q := by
      have hcast : (((q.num * ((10 : ℤ) ^ decExp q / (q.den : ℤ))).natAbs : ℚ)) =
          ((((q.num * ((10 : ℤ) ^ decExp q / (q.den : ℤ))).natAbs : ℤ)) : ℚ) :=
        (Int.cast_natCast _).symm
      rw [hcast, habs, Int.cast_neg, hval]
      ring
    rw [hnum, if_pos hq]
    show (if ('-' : Char) = '-' then
        (parseNumCore (natNumString
          ((q.num * ((10 : ℤ) ^ decExp q / (q.den : ℤ))).natAbs) (decExp q))).map Neg.neg
      else parseNumCore ('-' :: natNumString
          ((q.num * ((10 : ℤ) ^ decExp q / (q.den : ℤ))).natAbs) (decExp q))) = some q
    rw [if_pos rfl, parseNumCore_natNumString]
    show some (-((((q.num * ((10 : ℤ) ^ decExp q / (q.den : ℤ))).natAbs : ℚ)) /
      10 ^ decExp q)) = some q
    rw [habsq, mul_div_cancel_right₀ _ h10q, neg_neg]
  · have hnneg : 0 ≤ q.num * k :=
      mul_nonneg (Rat.num_nonneg.mpr hq) (le_of_lt hk0)
    have habs : (((q.num * ((10 : ℤ) ^ decExp q / (q.den : ℤ))).natAbs : ℤ)) = q.num * k := by
      rw [hscaled]
      omega
    have habsq : (((q.num * ((10 : ℤ) ^ decExp q / (q.den : ℤ))).natAbs : ℚ)) =
        q * 10 ^ decExp q := by
      have hcast : (((q.num * ((10 : ℤ) ^ decExp q / (q.den : ℤ))).natAbs : ℚ)) =
          ((((q.num * ((10 : ℤ) ^ decExp q / (q.den : ℤ))).natAbs : ℤ)) : ℚ) :=
        (Int.cast_natCast _).symm
      rw [hcast, habs, hval]
    rw [hnum, if_neg (not_lt.mpr hq),
      parseNum_mk_digits _ (natNumString_ne_nil _ _) (natNumString_chars _ _),
      parseNumCore_natNumString, habsq, mul_div_cancel_right₀ _ h10q]

/-- C9: building the `get_forecast` request URL from validated arguments
and re-parsing its query parameters yields the original latitude,
longitude and forecast_days values.  The `IsDecimal` hypotheses hold for
every finite JS double (its reduced denominator is a power of two), so
they cover every representable argument value. -/
theorem forecast_url_roundtrip (latitude longitude forecast_days : ℚ)
    (h1 : IsDecimal latitude) (h2 : IsDecimal longitude)
    (h3 : IsDecimal forecast_days) :
    parseQueryParam (getForecastURL latitude longitude forecast_days) "latitude" =
      some latitude ∧
    parseQueryParam (getForecastURL latitude longitude forecast_days) "longitude" =
      some longitude ∧
    parseQueryParam (getForecastURL latitude longitude forecast_days) "forecast_days" =
      some forecast_days := by
  refine ⟨?_, ?_, ?_⟩
  · have hg : getParam (getForecastURL latitude longitude forecast_days) "latitude" =
        some (numToString latitude) := rfl
    rw [parseQueryParam, hg]
    exact numToString_roundtrip latitude h1
  · have hg : getParam (getForecastURL latitude longitude forecast_days) "longitude" =
        some (numToString longitude) := rfl
    rw [parseQueryParam, hg]
    exact numToString_roundtrip longitude h2
  · have hg : getParam (getForecastURL latitude longitude forecast_days)
        "forecast_days" = some (numToString forecast_days) := rfl
    rw [parseQueryParam, hg]
    exact numToString_roundtrip forecast_days h3

/-- C9, witness: the round trip at latitude 40.7128, longitude -74.006 and
the default forecast_days 7. -/
theorem forecast_url_roundtrip_witness :
    parseQueryParam (getForecastURL (mkRat 407128 10000) (mkRat (-74006) 1000) 7)
      "latitude" = some (mkRat 407128 10000) ∧
    parseQueryParam (getForecastURL (mkRat 407128 10000) (mkRat (-74006) 1000) 7)
      "longitude" = some (mkRat (-74006) 1000) ∧
    parseQueryParam (getForecastURL (mkRat 407128 10000) (mkRat (-74006) 1000) 7)
      "forecast_days" = some 7 :=
  forecast_url_roundtrip (mkRat 407128 10000) (mkRat (-74006) 1000) 7
    (by decide) (by decide) (by decide)

end WeatherMCP
